import Mathlib

/-!
Verification development for the streaming analytics dashboard
(src/streamlit/streamlit_app.py).

The dashboard periodically fetches an orders table and four pre-aggregated
preference views from a warehouse, caches each query result with a fixed
time-to-live, derives metrics and grouped tables from the raw orders table
with pandas, filters the raw table for display, and renders everything.

We embed the data model and the computational core shallowly:
- a pandas DataFrame becomes a `Table`: a list of present column names
  plus a list of fully populated `Order` records (a column that is absent
  from `cols` is simply never read by the guarded computations);
- monetary and numeric values are rationals, timestamps are integers;
- pandas groupby/agg over a possibly missing column becomes an
  `AggResult`, distinguishing a successful table, a guarded skip with a
  user-visible warning, and a raised KeyError;
- the Streamlit rerun cycle becomes the pure function `runCycle` from the
  fetched raw table, the (possibly failing) view fetch result and the
  filter controls to the rendered outputs.
-/

namespace StreamlitDashboard

/-- One order row, with all 21 columns selected by the dashboard query
(streamlit_app.py lines 164-190) plus the slot for the derived helper
column `hour` that the overview tab writes into the raw table in place
(line 375).  Values of columns that are absent from a table schema are
junk and are never read by the guarded computations. -/
structure Order where
  customer_id : String
  age : Int
  gender : String
  category : String
  item_purchased : String
  purchase_amount_usd : ℚ
  location : String
  review_rating : ℚ
  subscription_status : String
  payment_method : String
  processed_time : Int
  final_amount_usd : ℚ
  amount_category : String
  customer_segment : String
  satisfaction_level : String
  is_anomaly : Bool
  estimated_clv : ℚ
  frequency_category : String
  estimated_profit_usd : ℚ
  season_type : String
  loyalty_score : ℚ
  hour : Int
deriving DecidableEq

/-- A pandas DataFrame: the list of column names actually present plus the
row data.  Presence checks such as the source code line
334 `if purchase_amount_usd in orders_df.columns` become membership tests
on `cols`. -/
structure Table where
  cols : List String
  rows : List Order
deriving DecidableEq

/-- The 21 columns selected by the fetch query (lines 165-186). -/
def selected_columns : List String :=
  ["customer_id", "age", "gender", "category", "item_purchased",
   "purchase_amount_usd", "location", "review_rating", "subscription_status",
   "payment_method", "processed_time", "final_amount_usd", "amount_category",
   "customer_segment", "satisfaction_level", "is_anomaly", "estimated_clv",
   "frequency_category", "estimated_profit_usd", "season_type", "loyalty_score"]

/-- pandas Series.sum over a list of rationals. -/
def ratSum (l : List ℚ) : ℚ := l.sum

/-- pandas Series.mean; the dashboard only evaluates it on nonempty data
(the empty-table branch short-circuits first), and rational division by
zero yields 0 here where pandas would yield NaN. -/
def ratMean (l : List ℚ) : ℚ := l.sum / l.length

/- ------------------------------------------------------------------
Headline metrics, lines 333-350: every metric is guarded by a column
presence check and falls back to 0 (final revenue falls back to total
revenue) when the column is missing.
------------------------------------------------------------------ -/

/-- line 333: total_orders = len(orders_df). -/
def total_orders (t : Table) : ℕ := t.rows.length

/-- line 334: sum of purchase_amount_usd, 0 if the column is absent. -/
def total_revenue (t : Table) : ℚ :=
  if "purchase_amount_usd" ∈ t.cols then
    ratSum (t.rows.map Order.purchase_amount_usd)
  else 0

/-- line 335: mean of purchase_amount_usd, 0 if the column is absent. -/
def avg_order_value (t : Table) : ℚ :=
  if "purchase_amount_usd" ∈ t.cols then
    ratMean (t.rows.map Order.purchase_amount_usd)
  else 0

/-- line 336: mean of review_rating, 0 if the column is absent. -/
def avg_rating (t : Table) : ℚ :=
  if "review_rating" ∈ t.cols then
    ratMean (t.rows.map Order.review_rating)
  else 0

/-- line 347: sum of the boolean is_anomaly column, i.e. the number of
rows flagged anomalous, 0 if the column is absent. -/
def anomalies_count (t : Table) : ℕ :=
  if "is_anomaly" ∈ t.cols then
    (t.rows.filter (fun r => r.is_anomaly)).length
  else 0

/-- line 348: sum of estimated_profit_usd, 0 if the column is absent. -/
def total_profit (t : Table) : ℚ :=
  if "estimated_profit_usd" ∈ t.cols then
    ratSum (t.rows.map Order.estimated_profit_usd)
  else 0

/-- line 349: number of rows with customer_segment equal to VIP, 0 if the
column is absent. -/
def vip_customers (t : Table) : ℕ :=
  if "customer_segment" ∈ t.cols then
    (t.rows.filter (fun r => r.customer_segment == "VIP")).length
  else 0

/-- line 350: sum of final_amount_usd, falling back to total revenue if
the column is absent. -/
def final_revenue (t : Table) : ℚ :=
  if "final_amount_usd" ∈ t.cols then
    ratSum (t.rows.map Order.final_amount_usd)
  else total_revenue t

/-- The eight headline metric values rendered at lines 338-355. -/
structure Headline where
  total_orders : ℕ
  total_revenue : ℚ
  avg_order_value : ℚ
  avg_rating : ℚ
  anomalies_count : ℕ
  total_profit : ℚ
  vip_customers : ℕ
  final_revenue : ℚ
deriving DecidableEq

/-- All headline metrics of one cycle, computed from the raw orders table
only (lines 333-355). -/
def headline (t : Table) : Headline :=
  { total_orders := total_orders t
    total_revenue := total_revenue t
    avg_order_value := avg_order_value t
    avg_rating := avg_rating t
    anomalies_count := anomalies_count t
    total_profit := total_profit t
    vip_customers := vip_customers t
    final_revenue := final_revenue t }

/- ------------------------------------------------------------------
Anomaly tab, lines 750-762.
------------------------------------------------------------------ -/

/-- line 751: the subset of rows flagged anomalous (computed inside the
guard that the is_anomaly column is present). -/
def anomalies_df (t : Table) : List Order :=
  t.rows.filter (fun r => r.is_anomaly)

/-- line 759: the anomaly rate, anomaly count over total row count,
guarded against an empty denominator.  The UI multiplies this ratio by
100 to render it as a percentage. -/
def anomaly_rate (t : Table) : ℚ :=
  if 0 < t.rows.length then
    ((anomalies_df t).length : ℚ) / (t.rows.length : ℚ)
  else 0

/- ------------------------------------------------------------------
Filter engine and display truncation, lines 989-1003: an empty
multiselect is falsy in Python, so an empty subset applies no filter on
that dimension; both filters act on a copy of the raw table.
------------------------------------------------------------------ -/

/-- lines 989-993: start from a copy of the table, keep only rows whose
category is in the category filter (if nonempty), then only rows whose
location is in the location filter (if nonempty). -/
def apply_filters (t : Table) (cats locs : List String) : Table :=
  let f1 : Table :=
    if cats.isEmpty then t
    else { t with rows := t.rows.filter (fun r => cats.contains r.category) }
  if locs.isEmpty then f1
  else { f1 with rows := f1.rows.filter (fun r => locs.contains r.location) }

/-- line 1003: head(limit_display) on the filtered table (the display
also projects to a fixed column subset, which no claim concerns). -/
def truncate_display (t : Table) (n : ℕ) : Table :=
  { t with rows := t.rows.take n }

/- ------------------------------------------------------------------
In-place mutation of the raw table by the overview tab, lines 373-375:
orders_df gets its processed_time column normalised to datetime (already
integral timestamps in this model) and a derived hour column appended,
both in place, when processed_time is present.
------------------------------------------------------------------ -/

/-- Truncation of a timestamp to the start of its hour
(pd.Series.dt.floor on a one hour frequency). -/
def floorHour (ts : Int) : Int := ts - ts % 3600

/-- lines 373-375: the state of the orders_df variable after the overview
tab ran: unchanged when processed_time is absent, otherwise the same rows
with the hour helper populated and the hour column appended to the
schema. -/
def add_hour_column (t : Table) : Table :=
  if "processed_time" ∈ t.cols then
    { cols := t.cols ++ ["hour"],
      rows := t.rows.map (fun r => { r with hour := floorHour r.processed_time }) }
  else t

/- ------------------------------------------------------------------
Grouped derived tables.  A pandas groupby(...).agg(dict) raises KeyError
as soon as the dict names a column that is not in the frame, even when
the aggregation function attached to that column was switched by a
presence check; a grouped computation can also be skipped wholesale by
an outer column guard, which renders a warning instead.  `AggResult`
separates the three outcomes.
------------------------------------------------------------------ -/

/-- Outcome of one grouped derived-table computation: a computed table,
a guarded skip that renders a warning, or a pandas KeyError naming the
missing column (which escapes to the outer try/except at line 1010 and
aborts the rest of the cycle). -/
inductive AggResult (α : Type) where
  | ok : α → AggResult α
  | skipped : String → AggResult α
  | keyError : String → AggResult α
deriving DecidableEq

/-- Whether the grouped computation raised. -/
def AggResult.isFault {α : Type} : AggResult α → Bool
  | .keyError _ => true
  | _ => false

/-- Ascending order on strings, the pandas default key order of a
groupby result. -/
def strAsc (a b : String) : Prop := a ≤ b

instance : DecidableRel strAsc := fun a b => inferInstanceAs (Decidable (a ≤ b))

instance : IsTotal String strAsc := ⟨fun a b => le_total a b⟩

instance : IsTrans String strAsc := ⟨fun _ _ _ h1 h2 => le_trans h1 h2⟩

/-- One row of the revenue-by-segment derived table (line 835 names the
aggregated columns segment, total_revenue, avg_revenue, count,
total_profit). -/
structure SegRow where
  segment : String
  total_revenue : ℚ
  avg_revenue : ℚ
  count : ℕ
  total_profit : ℚ
deriving DecidableEq

/-- Descending order by total revenue (line 836 sort_values). -/
def segRevDesc (a b : SegRow) : Prop := b.total_revenue ≤ a.total_revenue

instance : DecidableRel segRevDesc := fun a b => inferInstanceAs (Decidable (_ ≤ _))

/-- The distinct customer segments of the table, in the pandas groupby
key order (sorted ascending). -/
def seg_keys (t : Table) : List String :=
  List.insertionSort strAsc (t.rows.map Order.customer_segment).dedup

/-- The rows of one segment group. -/
def seg_group (t : Table) (k : String) : List Order :=
  t.rows.filter (fun r => r.customer_segment == k)

/-- The aggregates of one segment group (line 831-835): sum, mean and
count of purchase_amount_usd and sum of estimated_profit_usd. -/
def mkSegRow (t : Table) (k : String) : SegRow :=
  { segment := k
    total_revenue := ratSum ((seg_group t k).map Order.purchase_amount_usd)
    avg_revenue := ratMean ((seg_group t k).map Order.purchase_amount_usd)
    count := (seg_group t k).length
    total_profit := ratSum ((seg_group t k).map Order.estimated_profit_usd) }

/-- lines 830-836: the revenue-by-segment table.  The block is skipped
with a warning when customer_segment is absent (line 866); otherwise the
agg dict names purchase_amount_usd unconditionally and names
estimated_profit_usd even when it is absent (the presence check at line
833 only switches the aggregation function from sum to count), so a
missing aggregated column raises KeyError. -/
def revenue_by_segment (t : Table) : AggResult (List SegRow) :=
  if "customer_segment" ∈ t.cols then
    if "purchase_amount_usd" ∈ t.cols then
      if "estimated_profit_usd" ∈ t.cols then
        .ok (List.insertionSort segRevDesc ((seg_keys t).map (mkSegRow t)))
      else .keyError "estimated_profit_usd"
    else .keyError "purchase_amount_usd"
  else .skipped "La colonne customer_segment nest pas disponible."

/-- One row of the VIP-Premium per-category table (line 707 names the
aggregated columns category, count, total_revenue, avg_amount, avg_clv). -/
structure VipCatRow where
  category : String
  count : ℕ
  total_revenue : ℚ
  avg_amount : ℚ
  avg_clv : ℚ
deriving DecidableEq

/-- Descending order by total revenue (line 708 sort_values). -/
def vipRevDesc (a b : VipCatRow) : Prop := b.total_revenue ≤ a.total_revenue

instance : DecidableRel vipRevDesc := fun a b => inferInstanceAs (Decidable (_ ≤ _))

/-- lines 685-686: the VIP-Premium subset of the raw table. -/
def vip_premium_rows (t : Table) : List Order :=
  t.rows.filter (fun r => r.customer_segment == "VIP" && r.amount_category == "Premium")

/-- The aggregates of one category group of the VIP-Premium subset
(lines 703-707). -/
def mkVipCatRow (g : List Order) (k : String) : VipCatRow :=
  { category := k
    count := (g.filter (fun r => r.category == k)).length
    total_revenue := ratSum ((g.filter (fun r => r.category == k)).map Order.purchase_amount_usd)
    avg_amount := ratMean ((g.filter (fun r => r.category == k)).map Order.purchase_amount_usd)
    avg_clv := ratMean ((g.filter (fun r => r.category == k)).map Order.estimated_clv) }

/-- lines 684-708: the VIP-Premium per-category table.  The tab is
skipped with a warning when customer_segment or amount_category is
absent (line 745) and shows an info message when the subset is empty
(line 743).  Otherwise purchase_amount_usd is read unguarded at line 693
and the agg dict at lines 703-706 names estimated_clv even when it is
absent (line 705 only switches the aggregation function), so either
column missing raises KeyError. -/
def vip_category (t : Table) : AggResult (List VipCatRow) :=
  if "customer_segment" ∈ t.cols ∧ "amount_category" ∈ t.cols then
    if (vip_premium_rows t).isEmpty then
      .skipped "Aucune transaction VIP Premium trouvee."
    else
      if "purchase_amount_usd" ∈ t.cols then
        if "estimated_clv" ∈ t.cols then
          .ok (List.insertionSort vipRevDesc
            (((vip_premium_rows t).map Order.category).dedup.insertionSort strAsc
              |>.map (mkVipCatRow (vip_premium_rows t))))
        else .keyError "estimated_clv"
      else .keyError "purchase_amount_usd"
  else .skipped "Les colonnes customer_segment et amount_category ne sont pas disponibles."

/- ------------------------------------------------------------------
Satisfaction pivot, lines 872-894: pivot the category x satisfaction
cross-tabulation; the pivot columns start as the distinct satisfaction
levels in the pandas default (ascending) order and are then reindexed to
the fixed preference sequence filtered to the levels present, unless no
preferred level is present at all, in which case the pivot is left as
is.
------------------------------------------------------------------ -/

/-- line 891: the fixed satisfaction level preference sequence. -/
def satisfaction_order : List String :=
  ["Very Satisfied", "Satisfied", "Neutral", "Dissatisfied"]

/-- The columns of the raw pivot table: the distinct satisfaction levels
occurring in the table, in the pandas default ascending order. -/
def present_levels (t : Table) : List String :=
  List.insertionSort strAsc (t.rows.map Order.satisfaction_level).dedup

/-- line 892: the preference sequence filtered to the levels that occur
in the pivot columns. -/
def available_levels (t : Table) : List String :=
  satisfaction_order.filter (fun l => decide (l ∈ present_levels t))

/-- lines 890-894: the final column order of the satisfaction pivot:
reindexed to the filtered preference sequence when that is nonempty,
otherwise left in the pandas default order. -/
def pivot_columns (t : Table) : List String :=
  if (available_levels t).isEmpty then present_levels t else available_levels t

/- ------------------------------------------------------------------
Raw order fetch, lines 159-190 and 325: the query selects the 21
columns, sorts by processed_time descending and limits the row count;
the limit parameter of fetch_latest_orders defaults to 1000 and the
dashboard calls the fetch with limit 10000.
------------------------------------------------------------------ -/

/-- Descending order by processing timestamp (freshest first), the ORDER
BY of the fetch query (line 188). -/
def ptDesc (a b : Order) : Prop := b.processed_time ≤ a.processed_time

instance : DecidableRel ptDesc := fun a b => inferInstanceAs (Decidable (_ ≤ _))

instance : IsTotal Order ptDesc := ⟨fun a b => le_total b.processed_time a.processed_time⟩

instance : IsTrans Order ptDesc := ⟨fun _ _ _ h1 h2 => le_trans h2 h1⟩

/-- line 160: the default of the limit parameter of
fetch_latest_orders. -/
def FETCH_DEFAULT_LIMIT : ℕ := 1000

/-- line 325: the limit the dashboard actually passes when fetching. -/
def DASHBOARD_FETCH_LIMIT : ℕ := 10000

/-- lines 164-190: the fetch query over the upstream orders relation:
select the 21 columns, order by processed_time descending, limit the row
count. -/
def fetch_latest_orders (upstream : List Order) (limit : ℕ) : Table :=
  { cols := selected_columns
    rows := (List.insertionSort ptDesc upstream).take limit }

/- ------------------------------------------------------------------
Result cache.  The dashboard realises the ResultCache with the external
st.cache_data decorator, so only the per-query TTL values are in the
repository source; the cache mechanics are modelled from the spec.
------------------------------------------------------------------ -/

/-- line 159: fetch_latest_orders caches its result for 10 seconds. -/
def ORDERS_CACHE_TTL : ℕ := 10

/-- line 218: fetch_age_preferences caches its result for 30 seconds. -/
def AGE_PREF_CACHE_TTL : ℕ := 30

/-- line 236: fetch_gender_preferences caches its result for 30 seconds. -/
def GENDER_PREF_CACHE_TTL : ℕ := 30

/-- line 252: fetch_location_preferences caches its result for 30
seconds. -/
def LOCATION_PREF_CACHE_TTL : ℕ := 30

/-- line 269: fetch_age_gender_category caches its result for 30
seconds. -/
def AGE_GENDER_CACHE_TTL : ℕ := 30

/-- Modelled from the spec: one ResultCache entry, (query identity,
payload, fetch timestamp, ttl); the cache itself (st.cache_data) is
external to the repository. -/
structure CacheEntry (α : Type) where
  qid : String
  payload : α
  time : ℕ
  ttl : ℕ

/-- Modelled from the spec: a live cache entry for a query identity is
one whose age at the current time is below its ttl. -/
def lookupLive {α : Type} (entries : List (CacheEntry α)) (qid : String) (now : ℕ) :
    Option (CacheEntry α) :=
  entries.find? (fun e => e.qid == qid && decide (now - e.time < e.ttl))

/-- Modelled from the spec: get_or_fetch returns the live payload on a
hit without invoking the fetch, and on a miss invokes the fetch, stores
the result with the current timestamp and the given ttl (replacing any
stale entry for the same query), and returns it.  The boolean records
whether the underlying fetch was invoked. -/
def get_or_fetch {α : Type} (entries : List (CacheEntry α)) (qid : String) (ttl : ℕ)
    (now : ℕ) (fetch : Unit → α) : α × List (CacheEntry α) × Bool :=
  match lookupLive entries qid now with
  | some e => (e.payload, entries, false)
  | none =>
    let v := fetch ()
    (v, { qid := qid, payload := v, time := now, ttl := ttl } ::
          entries.filter (fun e => e.qid != qid), true)

/- ------------------------------------------------------------------
Preference views and the render cycle.
------------------------------------------------------------------ -/

/-- One row of the age preference view under its fixed column contract
(dimension key, order count, average spend, average rating, top
category). -/
structure AgePrefRow where
  age_bucket : String
  orders : ℕ
  avg_spend : ℚ
  avg_rating : ℚ
  top_category : String
deriving DecidableEq

/-- lines 218-234: fetch_age_preferences queries the
v_age_preferences view; on failure (for example the view does not exist
upstream) it emits a visible warning and returns an empty table instead
of raising.  The upstream query outcome is the argument; the result is
the returned table together with the warnings emitted. -/
def fetch_age_preferences (upstream : Except String (List AgePrefRow)) :
    List AgePrefRow × List String :=
  match upstream with
  | .ok df => (df, [])
  | .error e => ([], ["Vue v_age_preferences non disponible: " ++ e])

/-- line 328: the warning shown when the fetched orders table is
empty. -/
def EMPTY_TABLE_WARNING : String :=
  "Aucune donnee trouvee dans BigQuery. Verifiez que le Consumer a traite des fichiers."

/-- Everything one render cycle hands to the presentation layer.  A
`none` component means the cycle never computed that output at all. -/
structure CycleOutput where
  warnings : List String
  headline : Option Headline
  revenueBySegment : Option (AggResult (List SegRow))
  vipByCategory : Option (AggResult (List VipCatRow))
  anomalyRate : Option ℚ
  agePrefView : Option (List AgePrefRow)
  viewFetches : ℕ
  displayed : Option Table
deriving DecidableEq

/-- lines 325-1008: one render cycle.  The raw table is fetched first;
if it is empty the cycle emits one warning and computes nothing else
(line 327); otherwise the headline metrics are computed from the raw
table, the derived tables are computed, the preference views are fetched
inside their tabs (the age view stands for all four here; `viewFetches`
counts the modelled view fetch calls), the overview tab appends the hour
helper column to the raw table in place, and the category and location
filters plus display truncation produce the displayed table from that
mutated raw table. -/
def runCycle (t : Table) (ageUpstream : Except String (List AgePrefRow))
    (cats locs : List String) (limitDisplay : ℕ) : CycleOutput :=
  if t.rows.isEmpty then
    { warnings := [EMPTY_TABLE_WARNING]
      headline := none
      revenueBySegment := none
      vipByCategory := none
      anomalyRate := none
      agePrefView := none
      viewFetches := 0
      displayed := none }
  else
    { warnings := (fetch_age_preferences ageUpstream).2
      headline := some (headline t)
      revenueBySegment := some (revenue_by_segment t)
      vipByCategory := some (vip_category t)
      anomalyRate := some (anomaly_rate t)
      agePrefView := some (fetch_age_preferences ageUpstream).1
      viewFetches := 1
      displayed := some (truncate_display (apply_filters (add_hour_column t) cats locs) limitDisplay) }

/- ------------------------------------------------------------------
Concrete sample data for witnesses and counterexamples.
------------------------------------------------------------------ -/

/-- A fully populated base order row. -/
def o0 : Order :=
  { customer_id := "CUST-1"
    age := 30
    gender := "Female"
    category := "Clothing"
    item_purchased := "Shirt"
    purchase_amount_usd := 10
    location := "Paris"
    review_rating := 4
    subscription_status := "Yes"
    payment_method := "Credit Card"
    processed_time := 7200
    final_amount_usd := 10
    amount_category := "Standard"
    customer_segment := "Regular"
    satisfaction_level := "Neutral"
    is_anomaly := false
    estimated_clv := 100
    frequency_category := "Frequent"
    estimated_profit_usd := 0
    season_type := "Winter"
    loyalty_score := 5
    hour := 0 }

/-- An anomalous order row. -/
def oAnom : Order := { o0 with is_anomaly := true, purchase_amount_usd := 500 }

/-- A VIP order row with a Premium amount category. -/
def oVip : Order :=
  { o0 with customer_segment := "VIP", amount_category := "Premium" }

/-- The three-row scenario table of the spec: amounts 10, 20, 30 with the
first and third row VIP Premium and the second Regular Standard. -/
def T_scenario : Table :=
  { cols := selected_columns
    rows := [{ oVip with purchase_amount_usd := 10, final_amount_usd := 10 },
             { o0 with purchase_amount_usd := 20, final_amount_usd := 20 },
             { oVip with purchase_amount_usd := 30, final_amount_usd := 30 }] }

/-- A one-row table with no anomalous row. -/
def T_noAnom : Table := { cols := selected_columns, rows := [o0] }

/-- A two-row table with exactly one anomalous row. -/
def T_anomMix : Table := { cols := selected_columns, rows := [o0, oAnom] }

/-- The empty fetched table. -/
def T_empty : Table := { cols := selected_columns, rows := [] }

/-- A one-row table whose schema is missing the estimated_profit_usd
column. -/
def T_missingProfit : Table :=
  { cols := selected_columns.filter (fun c => c != "estimated_profit_usd")
    rows := [o0] }

/-- A table with a VIP Premium row whose schema is missing the
estimated_clv column. -/
def T_missingClv : Table :=
  { cols := selected_columns.filter (fun c => c != "estimated_clv")
    rows := [oVip] }

/-- A four-row table in which each canonical satisfaction level occurs
once. -/
def T4levels : Table :=
  { cols := selected_columns
    rows := [{ o0 with satisfaction_level := "Very Satisfied" },
             { o0 with satisfaction_level := "Satisfied" },
             o0,
             { o0 with satisfaction_level := "Dissatisfied" }] }

/-- A sample age preference view row. -/
def sampleAgeRow : AgePrefRow :=
  { age_bucket := "18-25", orders := 3, avg_spend := 20, avg_rating := 4,
    top_category := "Clothing" }

/- ------------------------------------------------------------------
Helper lemmas about grouped sums and level membership.
------------------------------------------------------------------ -/

theorem sum_map_add (l : List String) (g h : String → ℚ) :
    (l.map (fun k => g k + h k)).sum = (l.map g).sum + (l.map h).sum := by
  induction l with
  | nil => simp
  | cons a as ih => simp only [List.map_cons, List.sum_cons, ih]; ring

theorem sum_single_key (ks : List String) (hnd : ks.Nodup) (s : String) (v : ℚ) :
    (ks.map (fun k => if s = k then v else 0)).sum = if s ∈ ks then v else 0 := by
  induction ks with
  | nil => simp
  | cons a as ih =>
    have hnd2 := (List.nodup_cons.mp hnd).2
    have hna := (List.nodup_cons.mp hnd).1
    by_cases hsa : s = a
    · subst hsa
      have hzero : (as.map (fun k => if s = k then v else 0)).sum = 0 := by
        rw [ih hnd2, if_neg hna]
      simp [hzero]
    · simp only [List.map_cons, List.sum_cons, if_neg hsa, zero_add, ih hnd2,
        List.mem_cons]
      by_cases hs : s ∈ as <;> simp [hs, hsa]

theorem sum_groups (key : Order → String) (f : Order → ℚ) (rows : List Order) :
    ∀ ks : List String, ks.Nodup → (∀ r ∈ rows, key r ∈ ks) →
      (ks.map (fun k => ((rows.filter (fun r => key r == k)).map f).sum)).sum
        = (rows.map f).sum := by
  induction rows with
  | nil => intro ks _ _; simp
  | cons a rs ih =>
    intro ks hnd hcov
    have hka : key a ∈ ks := hcov a (List.mem_cons_self a rs)
    have hcov2 : ∀ r ∈ rs, key r ∈ ks := fun r hr => hcov r (List.mem_cons_of_mem a hr)
    have hpt : ∀ k ∈ ks,
        (((a :: rs).filter (fun r => key r == k)).map f).sum
          = (if key a = k then f a else 0)
            + ((rs.filter (fun r => key r == k)).map f).sum := by
      intro k _
      by_cases h : key a = k
      · simp [List.filter_cons, h]
      · simp [List.filter_cons, h]
    rw [List.map_congr_left hpt, sum_map_add, sum_single_key ks hnd (key a) (f a),
      if_pos hka, ih ks hnd hcov2]
    simp

theorem mem_present_levels (t : Table) (l : String) :
    l ∈ present_levels t ↔ l ∈ t.rows.map Order.satisfaction_level := by
  unfold present_levels
  rw [List.mem_insertionSort, List.mem_dedup]

/- ------------------------------------------------------------------
Claim theorems.
------------------------------------------------------------------ -/

/-- C8: applying the filter engine with an empty category subset and an
empty location subset returns a table identical row-for-row to its input
(an empty subset means no filtering on that dimension, not
exclude-everything). -/
theorem empty_filters_identity : ∀ t : Table, apply_filters t [] [] = t :=
  fun _ => rfl

/-- C4 counterexample: the claim says the anomaly rate equals 0 exactly
when the raw table is empty, but a nonempty table with no anomalous row
also has anomaly rate 0. -/
theorem anomaly_rate_zero_nonempty :
    anomaly_rate T_noAnom = 0 ∧ T_noAnom.rows ≠ [] := by
  have h : anomalies_df T_noAnom = [] := rfl
  refine ⟨?_, by simp [T_noAnom]⟩
  simp [anomaly_rate, h]

/-- C4 (amended): for every raw order table the anomaly rate lies in
[0,1] and is computed with a guarded division that never faults; it
equals 0 when the raw table is empty, and more generally it equals 0
exactly when the anomaly count is 0 (which includes nonempty tables
without anomalies). -/
theorem anomaly_rate_bounds :
    ∀ t : Table,
      0 ≤ anomaly_rate t ∧ anomaly_rate t ≤ 1
      ∧ (t.rows = [] → anomaly_rate t = 0)
      ∧ (anomaly_rate t = 0 ↔ (anomalies_df t).length = 0) := by
  intro t
  by_cases h : 0 < t.rows.length
  · have hn : (0 : ℚ) < (t.rows.length : ℚ) := by exact_mod_cast h
    have hle : ((anomalies_df t).length : ℚ) ≤ (t.rows.length : ℚ) := by
      exact_mod_cast List.length_filter_le _ t.rows
    have hnonneg : (0 : ℚ) ≤ ((anomalies_df t).length : ℚ) := by positivity
    refine ⟨?_, ?_, ?_, ?_⟩
    · simp only [anomaly_rate, if_pos h]
      exact div_nonneg hnonneg hn.le
    · simp only [anomaly_rate, if_pos h]
      exact (div_le_one hn).mpr hle
    · intro he
      rw [he] at h
      simp at h
    · simp only [anomaly_rate, if_pos h]
      rw [div_eq_zero_iff]
      constructor
      · rintro (h0 | h0)
        · exact_mod_cast h0
        · exact absurd h0 hn.ne'
      · intro h0
        left
        exact_mod_cast h0
  · have hlen : t.rows.length = 0 := Nat.eq_zero_of_not_pos h
    have hnil : t.rows = [] := List.eq_nil_of_length_eq_zero hlen
    refine ⟨?_, ?_, fun _ => ?_, ?_⟩ <;>
      simp [anomaly_rate, anomalies_df, h, hnil]

/-- C4 witness: the amended bounds evaluated on a concrete two-row table
with one anomalous row. -/
theorem anomaly_rate_bounds_witness :
    0 ≤ anomaly_rate T_anomMix ∧ anomaly_rate T_anomMix ≤ 1
    ∧ (T_anomMix.rows = [] → anomaly_rate T_anomMix = 0)
    ∧ (anomaly_rate T_anomMix = 0 ↔ (anomalies_df T_anomMix).length = 0) :=
  anomaly_rate_bounds T_anomMix

/-- C1: contrary to the claim (and to the guarded intent of the code),
the grouped derived-table computations do fault on a missing aggregated
column: the revenue-by-segment groupby raises KeyError when
estimated_profit_usd is absent, and the VIP-Premium per-category groupby
raises KeyError when estimated_clv is absent, because the agg dicts
still name the absent column (the presence checks at lines 705 and 833
only switch the aggregation function). -/
theorem grouping_faults_on_missing_column :
    revenue_by_segment T_missingProfit = AggResult.keyError "estimated_profit_usd"
    ∧ vip_category T_missingClv = AggResult.keyError "estimated_clv"
    ∧ (revenue_by_segment T_missingProfit).isFault = true
    ∧ (vip_category T_missingClv).isFault = true := by decide

/-- C7 counterexample: the claim says the raw table is never mutated in
place after fetch, but the overview tab appends the derived hour column
to the fetched table in place (lines 374-375). -/
theorem raw_table_hour_mutation : add_hour_column T_anomMix ≠ T_anomMix := by
  decide

/-- C7 (amended): the filter engine and display truncation are
non-destructive (they only drop whole rows from a copy, leaving every
surviving row and every column unchanged, and the raw table itself
untouched), and the headline metrics of a cycle are computed from the
unfiltered raw table, hence unaffected by the filter and truncation
controls; the only in-place mutation of the raw table after fetch is the
overview step appending the derived hour column. -/
theorem raw_table_filter_untouched :
    ∀ (t : Table) (r : Except String (List AgePrefRow))
      (cats locs cats2 locs2 : List String) (n m : ℕ),
      (runCycle t r cats locs n).headline = (runCycle t r cats2 locs2 m).headline
      ∧ (apply_filters t cats locs).rows.Sublist t.rows
      ∧ (truncate_display t n).rows.Sublist t.rows
      ∧ (add_hour_column t = t ∨ (add_hour_column t).cols = t.cols ++ ["hour"]) := by
  intro t r cats locs cats2 locs2 n m
  refine ⟨?_, ?_, ?_, ?_⟩
  · cases h : t.rows.isEmpty <;> simp [runCycle, h]
  · unfold apply_filters
    by_cases hc : cats.isEmpty <;> by_cases hl : locs.isEmpty <;>
      simp only [hc, hl, if_pos, if_neg, Bool.false_eq_true, if_false, if_true] <;>
      first
        | exact List.Sublist.refl _
        | exact List.filter_sublist _
        | exact (List.filter_sublist _).trans (List.filter_sublist _)
  · exact List.take_sublist n t.rows
  · by_cases h : "processed_time" ∈ t.cols
    · right; simp [add_hour_column, h]
    · left; simp [add_hour_column, h]

/-- C6 counterexample: the claim says the configurable fetch limit
defaults to 10000, but the default of the limit parameter of
fetch_latest_orders is 1000 (line 160); the dashboard passes 10000
explicitly at the call site (line 325). -/
theorem fetch_default_limit_not_10000 :
    FETCH_DEFAULT_LIMIT = 1000 ∧ FETCH_DEFAULT_LIMIT ≠ 10000
    ∧ (fetch_latest_orders (List.replicate 1001 o0) FETCH_DEFAULT_LIMIT).rows.length
        = 1000 := by
  refine ⟨rfl, by decide, ?_⟩
  have h1 : (List.insertionSort ptDesc (List.replicate 1001 o0)).length = 1001 := by
    rw [(List.perm_insertionSort ptDesc _).length_eq, List.length_replicate]
  simp only [fetch_latest_orders]
  rw [List.length_take, h1]
  decide

/-- C6 (amended): the raw order fetch returns at most limit rows,
ordered by processing timestamp descending (freshest first); the limit
is configurable, its default in fetch_latest_orders is 1000, and the
dashboard invokes the fetch with limit 10000. -/
theorem fetch_limit_and_order :
    ∀ (upstream : List Order) (limit : ℕ),
      (fetch_latest_orders upstream limit).rows.length ≤ limit
      ∧ List.Sorted ptDesc (fetch_latest_orders upstream limit).rows
      ∧ FETCH_DEFAULT_LIMIT = 1000 ∧ DASHBOARD_FETCH_LIMIT = 10000 := by
  intro upstream limit
  refine ⟨?_, ?_, rfl, rfl⟩
  · simp [fetch_latest_orders, List.length_take]
  · exact List.Pairwise.sublist (List.take_sublist _ _)
      (List.sorted_insertionSort ptDesc upstream)

/-- C3: for every raw order table on which the segment grouping runs
without fault (its three aggregated or grouped columns are present), the
total-revenue column of the revenue-by-segment table sums to the
headline total revenue. -/
theorem segment_revenue_sums_to_total :
    ∀ t : Table, "customer_segment" ∈ t.cols → "purchase_amount_usd" ∈ t.cols →
      "estimated_profit_usd" ∈ t.cols →
      ∃ seg : List SegRow, revenue_by_segment t = AggResult.ok seg
        ∧ (seg.map SegRow.total_revenue).sum = (headline t).total_revenue := by
  intro t h1 h2 h3
  refine ⟨List.insertionSort segRevDesc ((seg_keys t).map (mkSegRow t)), ?_, ?_⟩
  · simp [revenue_by_segment, h1, h2, h3]
  · rw [((List.perm_insertionSort segRevDesc
      ((seg_keys t).map (mkSegRow t))).map SegRow.total_revenue).sum_eq]
    rw [List.map_map]
    have hsk : List.Perm ((seg_keys t).map (SegRow.total_revenue ∘ mkSegRow t))
        (((t.rows.map Order.customer_segment).dedup).map
            (SegRow.total_revenue ∘ mkSegRow t)) :=
      (List.perm_insertionSort strAsc _).map _
    rw [hsk.sum_eq]
    have hcomp : (SegRow.total_revenue ∘ mkSegRow t)
        = fun k => ((t.rows.filter
            (fun r => r.customer_segment == k)).map Order.purchase_amount_usd).sum := by
      funext k
      simp [mkSegRow, ratSum, seg_group, Function.comp]
    rw [hcomp]
    rw [sum_groups Order.customer_segment Order.purchase_amount_usd t.rows
      (t.rows.map Order.customer_segment).dedup (List.nodup_dedup _)
      (fun r hr => List.mem_dedup.mpr (List.mem_map_of_mem _ hr))]
    simp [headline, total_revenue, h2, ratSum]

/-- C3 witness: the three-row scenario table of the spec satisfies the
column hypotheses and its segment table sums to the headline total. -/
theorem segment_revenue_sums_to_total_witness :
    ∃ seg : List SegRow, revenue_by_segment T_scenario = AggResult.ok seg
      ∧ (seg.map SegRow.total_revenue).sum = (headline T_scenario).total_revenue :=
  segment_revenue_sums_to_total T_scenario (by decide) (by decide) (by decide)

/-- C9: for every raw order table whose schema carries the satisfaction
and category columns, the satisfaction pivot columns are exactly the
canonical sequence when all four canonical levels occur, and the
canonical sequence filtered to the levels actually present when at
least one canonical level occurs. -/
theorem satisfaction_pivot_column_order :
    ∀ t : Table, "satisfaction_level" ∈ t.cols → "category" ∈ t.cols →
      ((∀ l ∈ satisfaction_order, l ∈ t.rows.map Order.satisfaction_level) →
          pivot_columns t = satisfaction_order)
      ∧ ((∃ l ∈ satisfaction_order, l ∈ t.rows.map Order.satisfaction_level) →
          pivot_columns t = satisfaction_order.filter
            (fun l => decide (l ∈ t.rows.map Order.satisfaction_level))) := by
  intro t _ _
  have hfe : available_levels t
      = satisfaction_order.filter
          (fun l => decide (l ∈ t.rows.map Order.satisfaction_level)) := by
    unfold available_levels
    apply List.filter_congr
    intro l _
    by_cases hp : l ∈ t.rows.map Order.satisfaction_level
    · rw [decide_eq_true ((mem_present_levels t l).mpr hp), decide_eq_true hp]
    · rw [decide_eq_false (fun hc => hp ((mem_present_levels t l).mp hc)),
        decide_eq_false hp]
  have key : (∃ l ∈ satisfaction_order, l ∈ t.rows.map Order.satisfaction_level) →
      pivot_columns t = satisfaction_order.filter
        (fun l => decide (l ∈ t.rows.map Order.satisfaction_level)) := by
    rintro ⟨l0, hl0, hmem⟩
    have hne : available_levels t ≠ [] := by
      intro h0
      have hin : l0 ∈ available_levels t := by
        rw [hfe]
        exact List.mem_filter.mpr ⟨hl0, decide_eq_true hmem⟩
      rw [h0] at hin
      exact absurd hin (List.not_mem_nil l0)
    have hbe : (available_levels t).isEmpty = false := by
      cases hv : available_levels t
      · exact absurd hv hne
      · rfl
    unfold pivot_columns
    rw [hbe]
    simpa using hfe
  refine ⟨fun hall => ?_, key⟩
  rw [key ⟨"Very Satisfied", by simp [satisfaction_order],
    hall "Very Satisfied" (by simp [satisfaction_order])⟩]
  apply List.filter_eq_self.mpr
  intro l hl
  exact decide_eq_true (hall l hl)

/-- C9 witness: on a table in which each canonical level occurs, the
pivot columns are exactly the canonical sequence. -/
theorem satisfaction_pivot_column_order_witness :
    pivot_columns T4levels = satisfaction_order :=
  (satisfaction_pivot_column_order T4levels (by decide) (by decide)).1 (by decide)

theorem get_or_fetch_hit {α : Type} (entries : List (CacheEntry α)) (qid : String)
    (ttl now : ℕ) (f : Unit → α) (e : CacheEntry α)
    (h : lookupLive entries qid now = some e) :
    (get_or_fetch entries qid ttl now f).2.2 = false := by
  unfold get_or_fetch
  rw [h]

theorem get_or_fetch_miss_state {α : Type} (entries : List (CacheEntry α))
    (qid : String) (ttl now : ℕ) (f : Unit → α)
    (h : lookupLive entries qid now = none) :
    (get_or_fetch entries qid ttl now f).2.1
      = { qid := qid, payload := f (), time := now, ttl := ttl }
          :: entries.filter (fun e => e.qid != qid) := by
  unfold get_or_fetch
  rw [h]

/-- C2: for every ttl greater than 0, two get_or_fetch calls with the
same query identity within ttl of each other invoke the underlying
fetch at most once (never once each); and the per-query TTLs are the
fixed policy of the source: 10 seconds for the raw order fetch and 30
seconds for each of the four preference view fetches. -/
theorem get_or_fetch_single_fetch_within_ttl :
    ∀ (α : Type) (c : List (CacheEntry α)) (qid : String) (ttl t1 t2 : ℕ)
      (f1 f2 : Unit → α),
      0 < ttl → t1 ≤ t2 → t2 - t1 < ttl →
      (¬ ((get_or_fetch c qid ttl t1 f1).2.2 = true
          ∧ (get_or_fetch (get_or_fetch c qid ttl t1 f1).2.1 qid ttl t2 f2).2.2 = true))
      ∧ ORDERS_CACHE_TTL = 10 ∧ AGE_PREF_CACHE_TTL = 30 ∧ GENDER_PREF_CACHE_TTL = 30
      ∧ LOCATION_PREF_CACHE_TTL = 30 ∧ AGE_GENDER_CACHE_TTL = 30 := by
  intro α c qid ttl t1 t2 f1 f2 hpos hle hlt
  refine ⟨?_, rfl, rfl, rfl, rfl, rfl⟩
  rintro ⟨h1, h2⟩
  cases hl : lookupLive c qid t1 with
  | some e =>
    rw [get_or_fetch_hit c qid ttl t1 f1 e hl] at h1
    exact Bool.false_ne_true h1
  | none =>
    have hlook : lookupLive ((get_or_fetch c qid ttl t1 f1).2.1) qid t2
        = some { qid := qid, payload := f1 (), time := t1, ttl := ttl } := by
      rw [get_or_fetch_miss_state c qid ttl t1 f1 hl]
      unfold lookupLive
      apply List.find?_cons_of_pos
      simp [hlt]
    rw [get_or_fetch_hit _ qid ttl t2 f2 _ hlook] at h2
    exact Bool.false_ne_true h2

/-- C2 witness: a concrete hit within the 10 second raw-order TTL on an
initially empty cache. -/
theorem get_or_fetch_single_fetch_within_ttl_witness :
    (¬ ((get_or_fetch ([] : List (CacheEntry ℕ)) "orders" ORDERS_CACHE_TTL 0
          (fun _ => 7)).2.2 = true
        ∧ (get_or_fetch (get_or_fetch ([] : List (CacheEntry ℕ)) "orders"
              ORDERS_CACHE_TTL 0 (fun _ => 7)).2.1 "orders" ORDERS_CACHE_TTL 5
              (fun _ => 7)).2.2 = true))
    ∧ ORDERS_CACHE_TTL = 10 ∧ AGE_PREF_CACHE_TTL = 30 ∧ GENDER_PREF_CACHE_TTL = 30
    ∧ LOCATION_PREF_CACHE_TTL = 30 ∧ AGE_GENDER_CACHE_TTL = 30 :=
  get_or_fetch_single_fetch_within_ttl ℕ [] "orders" ORDERS_CACHE_TTL 0 5
    (fun _ => 7) (fun _ => 7) (by decide) (by decide) (by decide)

/-- C5: in every cycle with a nonempty raw table in which the preference
view fetch fails, the view table handed to the presentation layer is the
empty table, a visible warning is emitted, and the headline metrics are
exactly those of a cycle in which the view fetch succeeds. -/
theorem view_failure_isolated :
    ∀ (t : Table) (e : String) (v : List AgePrefRow) (cats locs : List String)
      (n : ℕ), t.rows.isEmpty = false →
      (runCycle t (Except.error e) cats locs n).agePrefView = some []
      ∧ (runCycle t (Except.error e) cats locs n).warnings ≠ []
      ∧ (runCycle t (Except.error e) cats locs n).headline
          = (runCycle t (Except.ok v) cats locs n).headline := by
  intro t e v cats locs n h
  refine ⟨?_, ?_, ?_⟩ <;> simp [runCycle, h, fetch_age_preferences]

/-- C5 witness: a failing view fetch on the concrete two-row table
leaves the headline identical to a successful fetch of a sample view. -/
theorem view_failure_isolated_witness :
    (runCycle T_anomMix (Except.error "not found") [] [] 100).agePrefView = some []
    ∧ (runCycle T_anomMix (Except.error "not found") [] [] 100).warnings ≠ []
    ∧ (runCycle T_anomMix (Except.error "not found") [] [] 100).headline
        = (runCycle T_anomMix (Except.ok [sampleAgeRow]) [] [] 100).headline :=
  view_failure_isolated T_anomMix "not found" [sampleAgeRow] [] [] 100 (by decide)

/-- C10: if the fetched raw table is empty, the cycle emits exactly one
warning and computes nothing else: no headline metrics, no derived
tables, no anomaly rate, no preference view fetch, no filtered display
table. -/
theorem empty_table_short_circuit :
    ∀ (t : Table) (r : Except String (List AgePrefRow)) (cats locs : List String)
      (n : ℕ), t.rows.isEmpty = true →
      runCycle t r cats locs n =
        { warnings := [EMPTY_TABLE_WARNING], headline := none,
          revenueBySegment := none, vipByCategory := none, anomalyRate := none,
          agePrefView := none, viewFetches := 0, displayed := none }
      ∧ (runCycle t r cats locs n).warnings.length = 1 := by
  intro t r cats locs n h
  constructor <;> simp [runCycle, h]

/-- C10 witness: the empty concrete table short-circuits the cycle. -/
theorem empty_table_short_circuit_witness :
    runCycle T_empty (Except.ok [sampleAgeRow]) [] [] 100 =
      { warnings := [EMPTY_TABLE_WARNING], headline := none,
        revenueBySegment := none, vipByCategory := none, anomalyRate := none,
        agePrefView := none, viewFetches := 0, displayed := none }
    ∧ (runCycle T_empty (Except.ok [sampleAgeRow]) [] [] 100).warnings.length = 1 :=
  empty_table_short_circuit T_empty (Except.ok [sampleAgeRow]) [] [] 100 (by decide)

end StreamlitDashboard
